import Mathlib

/-!
# Verification of the qml-edx notebooks

Shallow embedding of the two notebook files of the repository
(`10_Discrete_Optimization_and_Unsupervised_Learning-qiskit.ipynb` and
`14_Quantum_Matrix_Inversion.ipynb`) together with proofs of the
specification claims about them.

The embedding covers:
* the max-cut / Ising construction handed to the simulated annealer
  (`J, h` loop and `dimod.BinaryQuadraticModel(h, J, 0.0, dimod.SPIN)`);
* the pairwise Euclidean distance matrix `w`;
* the Markov-random-field `BinaryQuadraticModel` of the graphical-model
  exercise;
* the gate-by-gate quantum circuits (the Bell circuit and the 4-qubit HHL
  circuit of Exercises 1-5) and their statevector semantics;
* the statement structure of the notebook code cells (for the
  error-propagation claim) and the sizes of the fixed example inputs.
-/

namespace QmlEdx

/-! ## Max-cut as an Ising model

Source (10_Discrete_Optimization, annealing cell):
```
J, h = {}, {}
for i in range(n_instances):
    h[i] = 0
    for j in range(i+1, n_instances):
        J[(i, j)] = w[i, j]
model = dimod.BinaryQuadraticModel(h, J, 0.0, dimod.SPIN)
```
with `n_instances = 4`.  A `dimod` SPIN model assigns to a sample
`σ : {-1,+1}^4` the energy `∑ i, h[i]*σ_i + ∑ (i,j) ∈ J, J[(i,j)]*σ_i*σ_j
+ offset`.  We keep the weight matrix `w` abstract (in the notebook it is
a matrix of reals produced at run time from random data) and work over an
arbitrary linear ordered field so that every definition is executable at
`ℚ`. -/

/-- A spin assignment for the 4 instances; `true` encodes spin `+1`,
`false` encodes spin `-1`. -/
def Spin : Type := Fin 4 → Bool

/-- The numeric value of a spin. -/
def spinVal {α : Type} [LinearOrderedField α] (b : Bool) : α :=
  if b then 1 else -1

/-- The index pairs `(i, j)` with `i < j` over which the loop populates the
coupling dictionary `J`. -/
def couplingPairs : Finset (Fin 4 × Fin 4) :=
  Finset.univ.filter (fun p => p.1 < p.2)

/-- The energy of the `dimod.BinaryQuadraticModel(h, J, 0.0, dimod.SPIN)`
built in the annealing cell: on-site fields `h[i] = 0`, couplings
`J[(i,j)] = w[i,j]` for `i < j`, offset `0.0`. -/
def isingEnergy {α : Type} [LinearOrderedField α]
    (w : Fin 4 → Fin 4 → α) (σ : Spin) : α :=
  (∑ i : Fin 4, (0 : α) * spinVal (σ i)) +
    (∑ p ∈ couplingPairs, w p.1 p.2 * spinVal (σ p.1) * spinVal (σ p.2)) + 0

/-- The total edge weight of the weighted graph on the 4 instances. -/
def totalWeight {α : Type} [LinearOrderedField α]
    (w : Fin 4 → Fin 4 → α) : α :=
  ∑ p ∈ couplingPairs, w p.1 p.2

/-- The weight of the cut induced by a spin assignment: the total weight of
the edges whose endpoints carry different spins. -/
def cutWeight {α : Type} [LinearOrderedField α]
    (w : Fin 4 → Fin 4 → α) (σ : Spin) : α :=
  ∑ p ∈ couplingPairs.filter (fun p => σ p.1 ≠ σ p.2), w p.1 p.2

lemma spin_pair_identity {α : Type} [LinearOrderedField α]
    (c : α) (a b : Bool) :
    c * spinVal a * spinVal b
      = c - 2 * (if a ≠ b then c else 0) := by
  cases a <;> cases b <;> simp [spinVal] <;> ring

lemma isingEnergy_eq_pairSum {α : Type} [LinearOrderedField α]
    (w : Fin 4 → Fin 4 → α) (σ : Spin) :
    isingEnergy w σ
      = ∑ p ∈ couplingPairs, w p.1 p.2 * spinVal (σ p.1) * spinVal (σ p.2) := by
  simp [isingEnergy]

lemma isingEnergy_eq_total_sub_two_cut {α : Type} [LinearOrderedField α]
    (w : Fin 4 → Fin 4 → α) (σ : Spin) :
    isingEnergy w σ = totalWeight w - 2 * cutWeight w σ := by
  rw [isingEnergy_eq_pairSum, totalWeight, cutWeight, Finset.sum_filter,
    Finset.mul_sum, ← Finset.sum_sub_distrib]
  exact Finset.sum_congr rfl fun p _ => by
    simpa using spin_pair_identity (w p.1 p.2) (σ p.1) (σ p.2)

/-- **C1.**  For the Ising model handed to the simulated annealer (on-site
fields `h[i] = 0`, couplings `J[(i,j)] = w[i,j]` for `i < j` over the 4
instances, offset `0`), the energy of every spin assignment equals the sum
over `i < j` of `w[i,j]*σ_i*σ_j`, which equals the total edge weight minus
twice the weight of the cut induced by the assignment; hence the spin
assignments of minimum energy are exactly the maximum cuts of the weighted
graph. -/
theorem ising_maxcut_correct {α : Type} [LinearOrderedField α]
    (w : Fin 4 → Fin 4 → α) (σ : Spin) :
    (isingEnergy w σ
        = ∑ p ∈ couplingPairs, w p.1 p.2 * spinVal (σ p.1) * spinVal (σ p.2))
      ∧ (isingEnergy w σ = totalWeight w - 2 * cutWeight w σ)
      ∧ ((∀ τ : Spin, isingEnergy w σ ≤ isingEnergy w τ)
          ↔ (∀ τ : Spin, cutWeight w τ ≤ cutWeight w σ)) := by
  refine ⟨isingEnergy_eq_pairSum w σ, isingEnergy_eq_total_sub_two_cut w σ, ?_⟩
  constructor
  · intro hmin τ
    have h1 := hmin τ
    rw [isingEnergy_eq_total_sub_two_cut, isingEnergy_eq_total_sub_two_cut] at h1
    linarith
  · intro hmax τ
    have h1 := hmax τ
    rw [isingEnergy_eq_total_sub_two_cut, isingEnergy_eq_total_sub_two_cut]
    linarith

/-! ## The pairwise distance matrix

Source (10_Discrete_Optimization, Gram matrix cell):
```
w = np.zeros((n_instances, n_instances))
for i, j in itertools.product(*[range(n_instances)]*2):
    w[i, j] = np.linalg.norm(data[i]-data[j])
```
with `n_instances = 4` and `data` a list of 4 points of `ℝ^3`.  The loop
ranges over all pairs `(i, j)` and writes each entry exactly once, so the
resulting matrix is the function below; `np.linalg.norm` of a vector is
the square root of the sum of the squares of its entries. -/

/-- The pairwise weight/adjacency matrix built from the dataset. -/
noncomputable def weightMatrix (data : Fin 4 → EuclideanSpace ℝ (Fin 3))
    (i j : Fin 4) : ℝ :=
  Real.sqrt (∑ k : Fin 3, (data i k - data j k) ^ 2)

/-- **C5.**  For every dataset and all indices `i, j`, the entry `w[i, j]`
is the Euclidean norm of `data[i] - data[j]`; consequently the weight
matrix is symmetric and has zero diagonal. -/
theorem weightMatrix_norm_symm_diag (data : Fin 4 → EuclideanSpace ℝ (Fin 3))
    (i j : Fin 4) :
    (weightMatrix data i j = ‖data i - data j‖)
      ∧ weightMatrix data i j = weightMatrix data j i
      ∧ weightMatrix data i i = 0 := by
  refine ⟨?_, ?_, ?_⟩
  · rw [EuclideanSpace.norm_eq]
    simp only [weightMatrix, PiLp.sub_apply, Real.norm_eq_abs, sq_abs]
  · simp only [weightMatrix]
    rw [Finset.sum_congr rfl (fun k _ => by ring :
      ∀ k ∈ Finset.univ, (data i k - data j k) ^ 2 = (data j k - data i k) ^ 2)]
  · simp [weightMatrix]

/-! ## The Markov-random-field model

Source (10_Discrete_Optimization, graphical-models document, Exercise 1):
```
n_variables = 4
h = {v: 1 for v in range(n_variables)}
J = {(0, 1): -1, (1, 2): -1}
model = dimod.BinaryQuadraticModel(h, J, 0.0, dimod.BINARY)
```
We embed the constructed `BinaryQuadraticModel` as an association-list
record, keeping the dictionaries in their insertion order (which is what
the notebook's grading assertions observe via `model.linear` and
`model.quadratic`). -/

inductive Vartype : Type
  | SPIN : Vartype
  | BINARY : Vartype
deriving DecidableEq, Repr

structure BinaryQuadraticModel : Type where
  linear : List (ℕ × ℤ)
  quadratic : List ((ℕ × ℕ) × ℤ)
  offset : ℚ
  vartype : Vartype
deriving DecidableEq, Repr

def n_variables : ℕ := 4

/-- The model built in Exercise 1 of the graphical-models document. -/
def mrfModel : BinaryQuadraticModel :=
  { linear := (List.range n_variables).map (fun v => (v, 1))
    quadratic := [((0, 1), -1), ((1, 2), -1)]
    offset := 0
    vartype := .BINARY }

/-- **C10.**  The `BinaryQuadraticModel` of the Markov-random-field
exercise has exactly 4 variables of `BINARY` vartype with linear bias 1 on
every variable and quadratic couplings of -1 exactly on the pairs `(0, 1)`
and `(1, 2)`; variable 3 appears in no coupling and variables 0 and 2
share no direct coupling. -/
theorem mrfModel_structure :
    mrfModel.vartype = Vartype.BINARY
      ∧ mrfModel.linear.map Prod.fst = [0, 1, 2, 3]
      ∧ mrfModel.linear.map Prod.snd = [1, 1, 1, 1]
      ∧ mrfModel.quadratic.map Prod.fst = [(0, 1), (1, 2)]
      ∧ mrfModel.quadratic.map Prod.snd = [-1, -1]
      ∧ mrfModel.quadratic.all
          (fun e => !(e.1.1 == 3) && !(e.1.2 == 3)) = true
      ∧ mrfModel.quadratic.all
          (fun e => !(e.1 == (0, 2)) && !(e.1 == (2, 0))) = true := by
  decide

/-! ## Sizes of the fixed example inputs

The fixed example inputs that the notebook cells hand to library routines,
with their element counts, collected from all the documents in the two
notebook files. -/

def exampleInputSizes : List (String × ℕ) :=
  [ ("data instances (n_instances points of R^3)", 4)
  , ("weight matrix w, rows (graph nodes)", 4)
  , ("annealer on-site fields h", 4)
  , ("annealer couplings J (pairs i < j of 4)", 6)
  , ("Markov network variables (h = {v: 1 for v in range(4)})", 4)
  , ("Markov network couplings (J = {(0,1): -1, (1,2): -1})", 2)
  , ("networkx graph nodes", 4)
  , ("networkx graph edges", 2)
  , ("beta_range = [1/temperature, 1/temperature]", 2)
  , ("Bell circuit QuantumRegister(2)", 2)
  , ("Bell circuit ClassicalRegister(2)", 2)
  , ("reversibility circuit QuantumRegister(1)", 1)
  , ("reversibility circuit ClassicalRegister(1)", 1)
  , ("hhl QuantumRegister(4, q)", 4)
  , ("hhl ClassicalRegister(4, c)", 4)
  , ("X gate matrix np.array([[0,1],[1,0]]), rows", 2)
  , ("zero_ket = np.array([[1],[0]])", 2)
  , ("phi plus vector np.array([[1],[0],[0],[1]])/sqrt(2)", 4)
  , ("temperatures = [.5, 5, 2000]", 3)
  , ("energies = np.linspace(0, 20, 100)", 100) ]

/-- **C7, counterexample.**  Not every fixed example input has between 4
and 10 elements: the `energies` array handed to `np.exp` and `ax.plot`
(cited by the claim itself) has 100 elements, and several inputs (the
2-qubit Bell register, the 1-qubit reversibility-cell registers, the 2
Markov-network couplings, the 3 temperatures) have fewer than 4. -/
theorem exampleInputSizes_not_all_4_to_10 :
    exampleInputSizes.all (fun p => 4 ≤ p.2 && p.2 ≤ 10) = false := by
  decide

/-- **C7, amended.**  Every fixed example input the notebooks supply to a
library routine has between 1 and 100 elements, and the core problem
inputs (the data instances, the Markov-network variables, the HHL quantum
register) each have 4 elements. -/
theorem exampleInputSizes_bounded :
    exampleInputSizes.all (fun p => 1 ≤ p.2 && p.2 ≤ 100) = true
      ∧ exampleInputSizes.contains
          ("data instances (n_instances points of R^3)", 4) = true
      ∧ exampleInputSizes.contains
          ("Markov network variables (h = {v: 1 for v in range(4)})", 4) = true
      ∧ exampleInputSizes.contains ("hhl QuantumRegister(4, q)", 4) = true := by
  decide

/-! ## Quantum circuits

Statevector semantics for the gate calls made by the notebooks.  A basis
state of the 4-qubit register is a quadruple of booleans `(b0, b1, b2,
b3)`, qubit 0 first; following the simulator's little-endian convention
the basis index of `(b0, b1, b2, b3)` is `b0 + 2*b1 + 4*b2 + 8*b3`.  A
state assigns a complex amplitude to every basis state. -/

abbrev B4 : Type := Bool × Bool × Bool × Bool

abbrev State4 : Type := B4 → ℂ

def getQ : Fin 4 → B4 → Bool
  | 0, b => b.1
  | 1, b => b.2.1
  | 2, b => b.2.2.1
  | 3, b => b.2.2.2

def setQ : Fin 4 → Bool → B4 → B4
  | 0, v, b => (v, b.2.1, b.2.2.1, b.2.2.2)
  | 1, v, b => (b.1, v, b.2.2.1, b.2.2.2)
  | 2, v, b => (b.1, b.2.1, v, b.2.2.2)
  | 3, v, b => (b.1, b.2.1, b.2.2.1, v)

/-- The little-endian basis index of a basis state, matching the order in
which the notebook's `get_amplitudes` lists amplitudes. -/
def basisIndex (b : B4) : ℕ :=
  (cond b.1 1 0) + 2 * (cond b.2.1 1 0) + 4 * (cond b.2.2.1 1 0) +
    8 * (cond b.2.2.2 1 0)

/-- Apply a single-qubit gate with matrix `u` (row, column indexed by
`Bool`, `false` = `|0⟩`) to qubit `k`. -/
noncomputable def apply1 (u : Bool → Bool → ℂ) (k : Fin 4) (s : State4) :
    State4 :=
  fun b => u (getQ k b) false * s (setQ k false b) +
    u (getQ k b) true * s (setQ k true b)

/-- The Hadamard matrix `[[1, 1], [1, -1]] / √2`. -/
noncomputable def hMat (r c : Bool) : ℂ :=
  (if r && c then -1 else 1) * ((Real.sqrt 2 : ℝ) : ℂ)⁻¹

/-- The `u3(θ, φ, λ)` matrix of the SDK:
`[[cos(θ/2), -exp(iλ) sin(θ/2)], [exp(iφ) sin(θ/2), exp(i(φ+λ)) cos(θ/2)]]`. -/
noncomputable def u3Mat (θ φ lam : ℝ) : Bool → Bool → ℂ
  | false, false => ((Real.cos (θ / 2) : ℝ) : ℂ)
  | false, true => -Complex.exp (lam * Complex.I) * ((Real.sin (θ / 2) : ℝ) : ℂ)
  | true, false => Complex.exp (φ * Complex.I) * ((Real.sin (θ / 2) : ℝ) : ℂ)
  | true, true =>
      Complex.exp ((φ + lam) * Complex.I) * ((Real.cos (θ / 2) : ℝ) : ℂ)

/-- The elementary gate calls appearing in the HHL notebook (`hhl.h`,
`hhl.x`, `hhl.cz`, `hhl.cu1`, `hhl.swap`, `hhl.cu3`). -/
inductive Gate : Type
  | h (k : Fin 4)
  | x (k : Fin 4)
  | cz (c t : Fin 4)
  | cu1 (lam : ℝ) (c t : Fin 4)
  | swap (a b : Fin 4)
  | cu3 (θ φ lam : ℝ) (c t : Fin 4)

noncomputable def applyGate : Gate → State4 → State4
  | .h k, s => apply1 hMat k s
  | .x k, s => fun b => s (setQ k (!(getQ k b)) b)
  | .cz c t, s => fun b => if getQ c b && getQ t b then -s b else s b
  | .cu1 lam c t, s => fun b =>
      if getQ c b && getQ t b then Complex.exp (lam * Complex.I) * s b
      else s b
  | .swap j k, s => fun b => s (setQ j (getQ k b) (setQ k (getQ j b) b))
  | .cu3 θ φ lam c t, s => fun b =>
      if getQ c b then apply1 (u3Mat θ φ lam) t s b else s b

noncomputable def runCircuit (gs : List Gate) (s : State4) : State4 :=
  gs.foldl (fun st g => applyGate g st) s

/-- All registers start in `|0⟩`. -/
noncomputable def initialState : State4 :=
  fun b => if b = (false, false, false, false) then 1 else 0

/-- The qubits a gate call touches. -/
def gateQubits : Gate → List (Fin 4)
  | .h k => [k]
  | .x k => [k]
  | .cz c t => [c, t]
  | .cu1 _ c t => [c, t]
  | .swap j k => [j, k]
  | .cu3 _ _ _ c t => [c, t]

/-! The gate calls of the five exercises of the matrix-inversion notebook,
in the order the cells append them. -/

def hhlEx1 : List Gate := [.h 1, .h 2, .x 3]

def hhlEx2 : List Gate := [.cz 2 3]

noncomputable def hhlEx3 : List Gate :=
  [.swap 1 2, .h 2, .cu1 (-(Real.pi / 2)) 1 2, .h 1]

def hhlEx4 : List Gate :=
  [.swap 1 2, .cu3 0.392699 0 0 1 0, .cu3 0.19634955 0 0 2 0]

noncomputable def hhlEx5 : List Gate :=
  [.swap 1 2, .h 1, .cu1 (Real.pi / 2) 1 2, .h 2, .swap 1 2, .cz 2 3,
    .h 1, .h 2]

/-- The whole `hhl` circuit: the sequential composition, in cell order, of
the gates appended by Exercises 1 through 5. -/
noncomputable def hhlGates : List Gate :=
  hhlEx1 ++ hhlEx2 ++ hhlEx3 ++ hhlEx4 ++ hhlEx5

/-! Intermediate statevectors, read off the grading cells. -/

/-- After Exercise 1: amplitude `1/2` on the basis states with qubit 0 in
`|0⟩` and qubit 3 in `|1⟩` (basis indices 8, 10, 12, 14). -/
noncomputable def psi1 : State4 := fun b =>
  if b.1 = false ∧ b.2.2.2 = true then 1 / 2 else 0

/-- After Exercise 2: the `CZ` has negated the amplitudes with qubit 2 in
`|1⟩` (basis indices 12, 14). -/
noncomputable def psi2 : State4 := fun b =>
  if b.1 = false ∧ b.2.2.2 = true then
    (if b.2.2.1 then -(1 / 2) else 1 / 2) else 0

/-- After Exercise 3: the unit amplitude sits at basis index 10. -/
noncomputable def psi3 : State4 := fun b =>
  if b = (false, true, false, true) then 1 else 0

/-- A state carrying amplitude `a` at basis index 12 and `b` at basis
index 13 (the shape of the state entering the Exercise 5 uncompute). -/
noncomputable def preUncompute (a b : ℂ) : State4 := fun v =>
  if v = (false, false, true, true) then a
  else if v = (true, false, true, true) then b else 0

/-- A state carrying amplitude `a` at basis index 8 and `b` at basis
index 9 (the shape of the state after the Exercise 5 uncompute). -/
noncomputable def postUncompute (a b : ℂ) : State4 := fun v =>
  if v = (false, false, false, true) then a
  else if v = (true, false, false, true) then b else 0

/-- After Exercise 4: `cos(0.19634955/2)` at basis index 12 and
`sin(0.19634955/2)` at basis index 13. -/
noncomputable def psi4 : State4 :=
  preUncompute ((Real.cos (0.19634955 / 2) : ℝ) : ℂ)
    ((Real.sin (0.19634955 / 2) : ℝ) : ℂ)

/-- The statevector produced by the full `hhl` circuit. -/
noncomputable def hhlFinalState : State4 :=
  postUncompute ((Real.cos (0.19634955 / 2) : ℝ) : ℂ)
    ((Real.sin (0.19634955 / 2) : ℝ) : ℂ)

lemma sqrt2_sq : ((Real.sqrt 2 : ℝ) : ℂ) ^ 2 = 2 := by
  norm_cast
  rw [Real.sq_sqrt (by norm_num)]

lemma invs2_sq :
    ((Real.sqrt 2 : ℝ) : ℂ)⁻¹ * ((Real.sqrt 2 : ℝ) : ℂ)⁻¹ = 1 / 2 := by
  rw [← mul_inv, ← sq, sqrt2_sq]
  norm_num

lemma invs2_sq' : (((Real.sqrt 2 : ℝ) : ℂ) ^ 2)⁻¹ = 1 / 2 := by
  rw [sqrt2_sq]; norm_num

lemma invs2_pow2 : ((Real.sqrt 2 : ℝ) : ℂ)⁻¹ ^ 2 = 1 / 2 := by
  rw [inv_pow, sqrt2_sq]
  norm_num

lemma invs2_pow4 : ((Real.sqrt 2 : ℝ) : ℂ)⁻¹ ^ 4 = 1 / 4 := by
  rw [show (4 : ℕ) = 2 * 2 from rfl, pow_mul, inv_pow, sqrt2_sq]
  norm_num

set_option maxHeartbeats 1600000 in
lemma runCircuit_hhlEx1 : runCircuit hhlEx1 initialState = psi1 := by
  funext b
  obtain ⟨b0, b1, b2, b3⟩ := b
  cases b0 <;> cases b1 <;> cases b2 <;> cases b3 <;>
    simp [runCircuit, hhlEx1, applyGate, apply1, hMat, initialState, psi1,
      getQ, setQ, mul_assoc, invs2_sq]

lemma runCircuit_hhlEx2 : runCircuit hhlEx2 psi1 = psi2 := by
  funext b
  obtain ⟨b0, b1, b2, b3⟩ := b
  cases b0 <;> cases b1 <;> cases b2 <;> cases b3 <;>
    simp [runCircuit, hhlEx2, applyGate, psi1, psi2, getQ, setQ]

set_option maxHeartbeats 1600000 in
lemma runCircuit_hhlEx3 : runCircuit hhlEx3 psi2 = psi3 := by
  funext b
  obtain ⟨b0, b1, b2, b3⟩ := b
  cases b0 <;> cases b1 <;> cases b2 <;> cases b3 <;>
    simp [runCircuit, hhlEx3, applyGate, apply1, hMat, psi2, psi3, getQ,
      setQ, mul_assoc, invs2_sq]
  all_goals try ring_nf
  all_goals try simp only [invs2_pow2, invs2_pow4, invs2_sq, invs2_sq']
  all_goals try ring

set_option maxHeartbeats 1600000 in
lemma runCircuit_hhlEx4 : runCircuit hhlEx4 psi3 = psi4 := by
  funext b
  obtain ⟨b0, b1, b2, b3⟩ := b
  cases b0 <;> cases b1 <;> cases b2 <;> cases b3 <;>
    simp [runCircuit, hhlEx4, applyGate, apply1, u3Mat, psi3, psi4,
      preUncompute, getQ, setQ]

set_option maxHeartbeats 1600000 in
lemma runCircuit_hhlEx5 (a b : ℂ) :
    runCircuit hhlEx5 (preUncompute a b) = postUncompute a b := by
  funext v
  obtain ⟨b0, b1, b2, b3⟩ := v
  cases b0 <;> cases b1 <;> cases b2 <;> cases b3 <;>
    simp [runCircuit, hhlEx5, applyGate, apply1, hMat, preUncompute,
      postUncompute, getQ, setQ, mul_assoc, invs2_sq]
  all_goals try ring_nf
  all_goals try simp only [invs2_pow2, invs2_pow4, invs2_sq, invs2_sq']
  all_goals try ring

lemma runCircuit_append (gs hs : List Gate) (s : State4) :
    runCircuit (gs ++ hs) s = runCircuit hs (runCircuit gs s) := by
  simp [runCircuit, List.foldl_append]

/-! ### Numeric bounds for the hardcoded expected amplitudes

`np.allclose(a, b)` holds elementwise when `|a - b| ≤ atol + rtol * |b|`
with the default tolerances `atol = 1e-8` and `rtol = 1e-5`.  The
hardcoded values `0.99518473` and `0.09801714` of the grading cells are
that close to `cos(0.19634955/2)` and `sin(0.19634955/2)`. -/

/-- Degree-5 Taylor bound for `sin`, obtained from the degree-6 partial
sum of the complex exponential. -/
lemma sin_quintic_bound {x : ℝ} (hx : |x| ≤ 1) :
    |Real.sin x - (x - x ^ 3 / 6 + x ^ 5 / 120)| ≤ |x| ^ 6 * (7 / 4320) := by
  have hI2 : Complex.I ^ 2 = -1 := Complex.I_sq
  have hI3 : Complex.I ^ 3 = -Complex.I := by rw [pow_succ, hI2]; ring
  have hI4 : Complex.I ^ 4 = 1 := Complex.I_pow_four
  have hI5 : Complex.I ^ 5 = Complex.I := by rw [pow_succ, hI4, one_mul]
  have hS : (∑ m ∈ Finset.range 6,
        ((x : ℂ) * Complex.I) ^ m / (m.factorial : ℂ))
      = (((1 : ℝ) - x ^ 2 / 2 + x ^ 4 / 24 : ℝ) : ℂ)
        + (((x : ℝ) - x ^ 3 / 6 + x ^ 5 / 120 : ℝ) : ℂ) * Complex.I := by
    rw [Finset.sum_range_succ, Finset.sum_range_succ, Finset.sum_range_succ,
      Finset.sum_range_succ, Finset.sum_range_succ, Finset.sum_range_succ,
      Finset.sum_range_zero]
    rw [mul_pow, mul_pow, mul_pow, mul_pow, mul_pow, mul_pow]
    rw [hI2, hI3, hI4, hI5]
    push_cast
    norm_num [Nat.factorial]
    ring
  have hIm : (∑ m ∈ Finset.range 6,
        ((x : ℂ) * Complex.I) ^ m / (m.factorial : ℂ)).im
      = x - x ^ 3 / 6 + x ^ 5 / 120 := by
    rw [hS]; simp [← Complex.ofReal_pow]
  have hkey : Real.sin x - (x - x ^ 3 / 6 + x ^ 5 / 120)
      = (Complex.exp (x * Complex.I) - ∑ m ∈ Finset.range 6,
          ((x : ℂ) * Complex.I) ^ m / (m.factorial : ℂ)).im := by
    rw [Complex.sub_im, Complex.exp_ofReal_mul_I_im, hIm]
  rw [hkey]
  have habs : Complex.abs ((x : ℂ) * Complex.I) = |x| := by
    rw [map_mul, Complex.abs_I, Complex.abs_ofReal, mul_one]
  calc |(Complex.exp (x * Complex.I) - ∑ m ∈ Finset.range 6,
          ((x : ℂ) * Complex.I) ^ m / (m.factorial : ℂ)).im|
      ≤ Complex.abs (Complex.exp (x * Complex.I) - ∑ m ∈ Finset.range 6,
          ((x : ℂ) * Complex.I) ^ m / (m.factorial : ℂ)) :=
        Complex.abs_im_le_abs _
    _ ≤ Complex.abs ((x : ℂ) * Complex.I) ^ 6
          * ((Nat.succ 6 : ℝ) * ((Nat.factorial 6 : ℝ) * (6 : ℝ))⁻¹) := by
        refine Complex.exp_bound ?_ (by norm_num)
        rw [habs]; exact hx
    _ = |x| ^ 6 * (7 / 4320) := by
        rw [habs]; norm_num [Nat.factorial]

lemma cos_allclose :
    |Real.cos 0.098174775 - 0.99518473|
      ≤ 0.00000001 + 0.00001 * 0.99518473 := by
  have hx : |(0.098174775 : ℝ)| ≤ 1 := by
    rw [abs_of_pos] <;> norm_num
  have h1 := Real.cos_bound hx
  have h2 : |(0.098174775 : ℝ)| ^ 4 * (5 / 96) ≤ 0.0000049 := by
    rw [abs_of_pos] <;> norm_num
  have h3 : |(1 - (0.098174775 : ℝ) ^ 2 / 2) - 0.99518473| ≤ 0.0000039 := by
    rw [abs_of_nonpos (by norm_num)]
    norm_num
  calc |Real.cos 0.098174775 - 0.99518473|
      ≤ |Real.cos 0.098174775 - (1 - (0.098174775 : ℝ) ^ 2 / 2)|
          + |(1 - (0.098174775 : ℝ) ^ 2 / 2) - 0.99518473| := abs_sub_le _ _ _
    _ ≤ 0.0000049 + 0.0000039 := add_le_add (h1.trans h2) h3
    _ ≤ 0.00000001 + 0.00001 * 0.99518473 := by norm_num

lemma sin_allclose :
    |Real.sin 0.098174775 - 0.09801714|
      ≤ 0.00000001 + 0.00001 * 0.09801714 := by
  have hx : |(0.098174775 : ℝ)| ≤ 1 := by
    rw [abs_of_pos] <;> norm_num
  have h1 := sin_quintic_bound hx
  have h2 : |(0.098174775 : ℝ)| ^ 6 * (7 / 4320) ≤ 0.0000000015 := by
    rw [abs_of_pos] <;> norm_num
  have h3 : |((0.098174775 : ℝ) - 0.098174775 ^ 3 / 6 + 0.098174775 ^ 5 / 120)
      - 0.09801714| ≤ 0.000000005 := by
    rw [abs_of_nonneg (by norm_num)]
    norm_num
  calc |Real.sin 0.098174775 - 0.09801714|
      ≤ |Real.sin 0.098174775
            - ((0.098174775 : ℝ) - 0.098174775 ^ 3 / 6 + 0.098174775 ^ 5 / 120)|
          + |((0.098174775 : ℝ) - 0.098174775 ^ 3 / 6 + 0.098174775 ^ 5 / 120)
              - 0.09801714| := abs_sub_le _ _ _
    _ ≤ 0.0000000015 + 0.000000005 := add_le_add (h1.trans h2) h3
    _ ≤ 0.00000001 + 0.00001 * 0.09801714 := by norm_num

/-! ### The grading assertion of Exercise 1 (claim C2) -/

/-- The hardcoded expected amplitude vector of the Exercise 1 grading
cell: `np.array([0, 0, 0, 0, 0, 0, 0, 0, 0.5, 0, 0.5, 0, 0.5, 0, 0.5,
0])`. -/
def assertedAmplitudesEx1 : List ℚ :=
  [0, 0, 0, 0, 0, 0, 0, 0, 0.5, 0, 0.5, 0, 0.5, 0, 0.5, 0]

/-- **C2, counterexample.**  The amplitude vector asserted after the
state-preparation exercise is not a 4-element vector, and it does not
begin with `[0.5, 0, 0.5, 0, ...]`: it has 16 elements and its first
entry is `0`, not `0.5`. -/
theorem assertedAmplitudesEx1_not_4_element :
    assertedAmplitudesEx1.length ≠ 4
      ∧ assertedAmplitudesEx1.getD 0 0 ≠ 0.5 := by
  constructor
  · simp [assertedAmplitudesEx1]
  · norm_num [assertedAmplitudesEx1]

/-- **C2, amended.**  The amplitude vector asserted after the
state-preparation exercise of the matrix-inversion notebook (H on qubit
1, H on qubit 2, X on qubit 3 applied to the all-zero 4-qubit state) is a
16-element vector whose entries at basis indices 8, 10, 12, 14 are `0.5`
and whose other entries are `0`, and it is exactly the statevector the
prepared circuit produces. -/
theorem assertedAmplitudesEx1_matches_state :
    assertedAmplitudesEx1.length = 16
      ∧ assertedAmplitudesEx1
          = [0, 0, 0, 0, 0, 0, 0, 0, 0.5, 0, 0.5, 0, 0.5, 0, 0.5, 0]
      ∧ ∀ b : B4, runCircuit hhlEx1 initialState b
          = ((assertedAmplitudesEx1.getD (basisIndex b) 0 : ℚ) : ℂ) := by
  refine ⟨rfl, rfl, ?_⟩
  intro b
  rw [runCircuit_hhlEx1]
  obtain ⟨b0, b1, b2, b3⟩ := b
  cases b0 <;> cases b1 <;> cases b2 <;> cases b3 <;>
    norm_num [psi1, basisIndex, assertedAmplitudesEx1]

/-! ### The final state of the hhl circuit (claims C3, C9, C4) -/

/-- **C3.**  Executed top-to-bottom, the circuit `hhl` after Exercise 5
is the sequential composition, in cell order, of the gates appended by
Exercises 1 through 5; applied to the all-zero 4-qubit state it yields
the statevector with amplitude `cos(0.19634955/2) ≈ 0.99518473` at basis
index 8, `sin(0.19634955/2) ≈ 0.09801714` at basis index 9 and `0` at
every other index, the approximations holding within the grading cell's
`np.allclose` tolerance `1e-8 + 1e-5 * |expected|`. -/
theorem hhl_final_statevector :
    hhlGates = hhlEx1 ++ hhlEx2 ++ hhlEx3 ++ hhlEx4 ++ hhlEx5
      ∧ runCircuit hhlGates initialState = hhlFinalState
      ∧ hhlFinalState (false, false, false, true)
          = ((Real.cos (0.19634955 / 2) : ℝ) : ℂ)
      ∧ hhlFinalState (true, false, false, true)
          = ((Real.sin (0.19634955 / 2) : ℝ) : ℂ)
      ∧ basisIndex (false, false, false, true) = 8
      ∧ basisIndex (true, false, false, true) = 9
      ∧ |Real.cos (0.19634955 / 2) - 0.99518473|
          ≤ 0.00000001 + 0.00001 * 0.99518473
      ∧ |Real.sin (0.19634955 / 2) - 0.09801714|
          ≤ 0.00000001 + 0.00001 * 0.09801714 := by
  have hhalf : (0.19634955 : ℝ) / 2 = 0.098174775 := by norm_num
  refine ⟨rfl, ?_, by simp [hhlFinalState, postUncompute], ?_, rfl, rfl,
    hhalf ▸ cos_allclose, hhalf ▸ sin_allclose⟩
  · rw [hhlGates, runCircuit_append, runCircuit_append, runCircuit_append,
      runCircuit_append, runCircuit_hhlEx1, runCircuit_hhlEx2,
      runCircuit_hhlEx3, runCircuit_hhlEx4]
    exact runCircuit_hhlEx5 _ _
  · simp [hhlFinalState, postUncompute]

/-- **C9.**  The Exercise 5 uncompute sequence maps any state carrying
amplitudes `a` at basis index 12 and `b` at basis index 13 (and `0`
elsewhere) to the state carrying the same amplitudes `a` at basis index 8
and `b` at basis index 9 (and `0` elsewhere); at those basis states the
two eigenvalue-register qubits (qubits 1 and 2) are in `|0⟩`.  In
particular this transports the pre-uncompute amplitudes
`cos(0.19634955/2) ≈ 0.99518473` and `sin(0.19634955/2) ≈ 0.09801714` of
the Exercise 4 grading cell. -/
theorem uncompute_moves_amplitudes (a b : ℂ) :
    runCircuit hhlEx5 (preUncompute a b) = postUncompute a b
      ∧ basisIndex (false, false, true, true) = 12
      ∧ basisIndex (true, false, true, true) = 13
      ∧ basisIndex (false, false, false, true) = 8
      ∧ basisIndex (true, false, false, true) = 9
      ∧ getQ 1 (false, false, false, true) = false
      ∧ getQ 2 (false, false, false, true) = false
      ∧ getQ 1 (true, false, false, true) = false
      ∧ getQ 2 (true, false, false, true) = false
      ∧ runCircuit hhlEx4 psi3
          = preUncompute ((Real.cos (0.19634955 / 2) : ℝ) : ℂ)
              ((Real.sin (0.19634955 / 2) : ℝ) : ℂ) := by
  exact ⟨runCircuit_hhlEx5 a b, rfl, rfl, rfl, rfl, rfl, rfl, rfl, rfl,
    runCircuit_hhlEx4⟩

/-- **C4.**  The phase-estimation and controlled-rotation circuit for the
HHL algorithm is a fixed list of 19 elementary gate calls, and every one
of the 4 qubits of the register is acted on by some gate. -/
theorem hhl_circuit_shape :
    hhlGates.length = 19
      ∧ ∀ q : Fin 4, q ∈ (hhlGates.map gateQubits).flatten := by
  constructor
  · rfl
  · have hq : (hhlGates.map gateQubits).flatten
        = [1, 2, 3, 2, 3, 1, 2, 2, 1, 2, 1, 1, 2, 1, 0, 2, 0, 1, 2, 1, 1,
            2, 2, 1, 2, 2, 3, 1, 2] := rfl
    intro q
    rw [hq]
    fin_cases q <;> decide

/-! ### The Bell circuit (claim C8)

Source (gate-model document):
```
q = QuantumRegister(2)
c = ClassicalRegister(2)
circuit = QuantumCircuit(q, c)
circuit.h(q[0])
circuit.cx(q[0], q[1])
```
followed by measurement of both qubits. -/

abbrev B2 : Type := Bool × Bool

abbrev State2 : Type := B2 → ℂ

def getQ2 : Fin 2 → B2 → Bool
  | 0, b => b.1
  | 1, b => b.2

def setQ2 : Fin 2 → Bool → B2 → B2
  | 0, v, b => (v, b.2)
  | 1, v, b => (b.1, v)

/-- The little-endian basis index of a 2-qubit basis state. -/
def basisIndex2 (b : B2) : ℕ := (cond b.1 1 0) + 2 * (cond b.2 1 0)

noncomputable def apply1₂ (u : Bool → Bool → ℂ) (k : Fin 2) (s : State2) :
    State2 :=
  fun b => u (getQ2 k b) false * s (setQ2 k false b) +
    u (getQ2 k b) true * s (setQ2 k true b)

/-- The gate calls of the Bell-state cell. -/
inductive Gate2 : Type
  | h (k : Fin 2)
  | cx (c t : Fin 2)

noncomputable def applyGate2 : Gate2 → State2 → State2
  | .h k, s => apply1₂ hMat k s
  | .cx c t, s => fun b =>
      if getQ2 c b then s (setQ2 t (!(getQ2 t b)) b) else s b

noncomputable def runCircuit2 (gs : List Gate2) (s : State2) : State2 :=
  gs.foldl (fun st g => applyGate2 g st) s

def bellGates : List Gate2 := [.h 0, .cx 0 1]

noncomputable def initialState2 : State2 :=
  fun b => if b = (false, false) then 1 else 0

/-- The state `(|00⟩ + |11⟩)/√2`. -/
noncomputable def bellState : State2 := fun b =>
  if b = (false, false) ∨ b = (true, true)
  then ((Real.sqrt 2 : ℝ) : ℂ)⁻¹ else 0

/-- The probability of observing a given measurement outcome on a state:
the squared modulus of its amplitude. -/
noncomputable def outcomeProb (s : State2) (b : B2) : ℝ :=
  Complex.normSq (s b)

/-- **C8.**  The Bell circuit (H on qubit 0 then CNOT with control 0 and
target 1) applied to `|00⟩` produces `(|00⟩ + |11⟩)/√2`, so the
measurement outcomes `01` and `10` (basis indices 1 and 2) have
probability zero and never appear among the measurement counts. -/
theorem bell_circuit_no_01_10 :
    runCircuit2 bellGates initialState2 = bellState
      ∧ outcomeProb bellState (true, false) = 0
      ∧ outcomeProb bellState (false, true) = 0
      ∧ basisIndex2 (true, false) = 1
      ∧ basisIndex2 (false, true) = 2
      ∧ bellState (false, false) = ((Real.sqrt 2 : ℝ) : ℂ)⁻¹
      ∧ bellState (true, true) = ((Real.sqrt 2 : ℝ) : ℂ)⁻¹ := by
  refine ⟨?_, by simp [outcomeProb, bellState], by simp [outcomeProb, bellState],
    rfl, rfl, by simp [bellState], by simp [bellState]⟩
  funext b
  obtain ⟨b0, b1⟩ := b
  cases b0 <;> cases b1 <;>
    simp [runCircuit2, bellGates, applyGate2, apply1₂, hMat, initialState2,
      bellState, getQ2, setQ2]

/-! ## Error handling (claim C6)

A coarse statement-level embedding of every code cell in the repository.
Each top-level statement is either a pure assignment (`assign`) or a
statement that invokes an external library routine, an import, or an
`assert`, any of which can raise (`callLib`); the grammar also has a
`tryExcept` construct so that the absence of exception handling is a
fact about the embedded cells, not about the grammar.  Loop bodies are
represented by the library calls they contain. -/

inductive Stmt : Type
  | assign (target : String)
  | callLib (fn : String)
  | tryExcept (body handler : List Stmt)

def stmtIsTry : Stmt → Bool
  | .tryExcept _ _ => true
  | _ => false

/-- The names of the (top-level) library calls of a cell. -/
def callNames : List Stmt → List String
  | [] => []
  | .assign _ :: rest => callNames rest
  | .callLib fn :: rest => fn :: callNames rest
  | .tryExcept _ _ :: rest => callNames rest

/-- Run the statements of a cell against an oracle describing which
library calls fail.  A failing call raises; a `tryExcept` would catch the
raise and run its handler. -/
def runStmts : List Stmt → (String → Except String Unit) →
    Except String Unit
  | [], _ => .ok ()
  | .assign _ :: rest, oracle => runStmts rest oracle
  | .callLib fn :: rest, oracle =>
      match oracle fn with
      | .error e => .error e
      | .ok _ => runStmts rest oracle
  | .tryExcept body handler :: rest, oracle =>
      match runStmts body oracle with
      | .error _ =>
          match runStmts handler oracle with
          | .error e => .error e
          | .ok _ => runStmts rest oracle
      | .ok _ => runStmts rest oracle

/-- In a cell without exception handlers, a run that finishes cleanly has
had every one of its library calls succeed. -/
lemma runStmts_ok_imp (stmts : List Stmt)
    (oracle : String → Except String Unit)
    (hno : stmts.all (fun s => !stmtIsTry s) = true)
    (hok : runStmts stmts oracle = .ok ()) :
    ∀ fn ∈ callNames stmts, oracle fn = .ok () := by
  induction stmts with
  | nil => intro fn hfn; simp [callNames] at hfn
  | cons s rest ih =>
    rw [List.all_cons, Bool.and_eq_true] at hno
    cases s with
    | assign t =>
      rw [runStmts] at hok
      intro fn hfn
      rw [callNames] at hfn
      exact ih hno.2 hok fn hfn
    | callLib g =>
      rw [runStmts] at hok
      intro fn hfn
      rw [callNames, List.mem_cons] at hfn
      rcases hg : oracle g with e | u
      · rw [hg] at hok; exact absurd hok (by simp)
      · rcases hfn with hfn | hfn
        · subst hfn; rw [hg]
        · rw [hg] at hok; exact ih hno.2 hok fn hfn
    | tryExcept body handler =>
      simp [stmtIsTry] at hno

/-! The code cells of the notebooks, in file order. -/

def cellClusterData : List Stmt :=
  [.callLib "import numpy", .callLib "import matplotlib",
    .assign "n_instances", .callLib "np.random.rand",
    .callLib "np.random.rand", .callLib "np.concatenate",
    .assign "colors", .callLib "plt.figure", .callLib "fig.add_subplot",
    .callLib "ax.scatter"]

def cellGramMatrix : List Stmt :=
  [.callLib "import itertools", .callLib "np.zeros",
    .callLib "np.linalg.norm"]

def cellAquaImports : List Stmt := [.callLib "import qiskit.aqua"]

def cellQaoaSetup : List Stmt :=
  [.callLib "max_cut.get_max_cut_qubitops", .assign "p",
    .callLib "COBYLA", .callLib "QAOA"]

def cellQaoaRun : List Stmt :=
  [.callLib "get_aer_backend", .callLib "QuantumInstance",
    .callLib "qaoa.run", .callLib "max_cut.sample_most_likely",
    .callLib "max_cut.get_graph_solution", .callLib "print",
    .callLib "print", .callLib "print", .callLib "print"]

def cellAnnealing : List Stmt :=
  [.callLib "import dimod", .assign "J, h",
    .callLib "dimod.BinaryQuadraticModel",
    .callLib "dimod.SimulatedAnnealingSampler", .callLib "sampler.sample",
    .callLib "print"]

def cellMrfSetup : List Stmt := [.callLib "run assignment_helper.py"]

def cellMrfModel : List Stmt :=
  [.assign "n_variables", .assign "h", .assign "J",
    .callLib "dimod.BinaryQuadraticModel"]

def cellMrfAsserts : List Stmt :=
  [.callLib "assert isinstance model", .callLib "assert model.vartype",
    .callLib "assert len(model.variables)", .callLib "assert model.linear",
    .callLib "assert model.linear.values",
    .callLib "assert model.quadratic",
    .callLib "assert model.quadratic.values"]

def cellMrfGraph : List Stmt :=
  [.callLib "import networkx", .callLib "networkx.Graph",
    .callLib "G.add_nodes_from", .callLib "G.add_edges_from"]

def cellMrfGraphAsserts : List Stmt :=
  [.callLib "assert G.nodes", .callLib "assert G.edges"]

def cellMrfDraw : List Stmt := [.callLib "networkx.draw"]

def cellEmbedding : List Stmt :=
  [.callLib "dwave_networkx.chimera_graph",
    .callLib "minorminer.find_embedding"]

def cellEmbeddingAsserts : List Stmt :=
  [.callLib "assert isinstance embedded_graph",
    .callLib "assert len(embedded_graph)"]

def cellEmbeddingDraw : List Stmt :=
  [.callLib "dwave_networkx.draw_chimera_embedding"]

def cellPartitionFunction : List Stmt :=
  [.assign "temperature", .callLib "dimod.SimulatedAnnealingSampler",
    .callLib "sampler.sample", .assign "degen", .callLib "np.exp",
    .assign "Z"]

def cellAutograder : List Stmt := []

def cellBellCircuit : List Stmt :=
  [.callLib "import qiskit", .callLib "QuantumRegister",
    .callLib "ClassicalRegister", .callLib "QuantumCircuit",
    .callLib "circuit.h", .callLib "circuit.cx", .callLib "circuit_drawer"]

def cellBellMeasure : List Stmt :=
  [.callLib "circuit.measure", .callLib "circuit_drawer"]

def cellBellExecute : List Stmt :=
  [.callLib "Aer.get_backend", .callLib "execute",
    .callLib "plot_histogram"]

def cellCompile : List Stmt :=
  [.callLib "import qiskit.compiler", .callLib "assemble",
    .callLib "compiled_circuit.as_dict"]

def cellHhlSetup : List Stmt := [.callLib "run assignment_helper.py"]

def cellHhlEx1 : List Stmt :=
  [.callLib "QuantumRegister", .callLib "ClassicalRegister",
    .callLib "QuantumCircuit", .callLib "hhl.h", .callLib "hhl.h",
    .callLib "hhl.x"]

def cellHhlGrade1 : List Stmt :=
  [.callLib "get_amplitudes", .callLib "assert np.allclose"]

def cellHhlEx2 : List Stmt := [.callLib "hhl.cz"]

def cellHhlGrade2 : List Stmt :=
  [.callLib "get_amplitudes", .callLib "assert np.allclose"]

def cellHhlEx3 : List Stmt :=
  [.callLib "hhl.swap", .callLib "hhl.h", .callLib "hhl.cu1",
    .callLib "hhl.h"]

def cellHhlGrade3 : List Stmt :=
  [.callLib "get_amplitudes", .callLib "assert np.allclose"]

def cellHhlEx4 : List Stmt :=
  [.callLib "hhl.swap", .callLib "hhl.cu3", .callLib "hhl.cu3"]

def cellHhlGrade4 : List Stmt :=
  [.callLib "get_amplitudes", .callLib "assert np.allclose"]

def cellHhlEx5 : List Stmt :=
  [.callLib "hhl.swap", .callLib "hhl.h", .callLib "hhl.cu1",
    .callLib "hhl.h", .callLib "hhl.swap", .callLib "hhl.cz",
    .callLib "hhl.h", .callLib "hhl.h"]

def cellHhlAmplitudes : List Stmt := [.assign "amplitudes"]

def cellHhlGrade5 : List Stmt :=
  [.callLib "get_amplitudes", .callLib "assert np.allclose"]

def cellHhlMeasure : List Stmt :=
  [.callLib "import qiskit.BasicAer", .callLib "hhl.measure",
    .callLib "BasicAer.get_backend", .callLib "execute",
    .callLib "result.get_counts", .callLib "print"]

def cellHhlEmpty : List Stmt := []

def cellUnitaryX : List Stmt :=
  [.callLib "import numpy", .callLib "np.array", .callLib "print",
    .callLib "print", .callLib "print", .callLib "print"]

def cellNormPreserved : List Stmt :=
  [.callLib "np.array", .callLib "print", .callLib "np.linalg.norm",
    .callLib "print", .callLib "np.linalg.norm"]

def cellReversibility : List Stmt :=
  [.callLib "import qiskit", .callLib "np.set_printoptions",
    .callLib "Aer.get_backend", .callLib "QuantumRegister",
    .callLib "ClassicalRegister", .callLib "QuantumCircuit",
    .callLib "circuit.x", .callLib "circuit.x", .callLib "execute",
    .callLib "print"]

def cellMixedState : List Stmt :=
  [.assign "mixed_state", .callLib "np.array", .callLib "print",
    .callLib "print", .callLib "print", .callLib "print",
    .callLib "print", .callLib "print", .callLib "print",
    .callLib "print"]

def cellBoltzmann : List Stmt :=
  [.callLib "import matplotlib", .assign "temperatures",
    .callLib "np.linspace", .callLib "plt.subplots", .callLib "np.exp",
    .assign "Z", .callLib "ax.plot", .callLib "ax.set_xlim",
    .callLib "ax.set_ylim", .callLib "ax.legend"]

/-- Every code cell of the repository's notebooks, in file order. -/
def notebookCodeCells : List (List Stmt) :=
  [cellClusterData, cellGramMatrix, cellAquaImports, cellQaoaSetup,
    cellQaoaRun, cellAnnealing, cellMrfSetup, cellMrfModel,
    cellMrfAsserts, cellMrfGraph, cellMrfGraphAsserts, cellMrfDraw,
    cellEmbedding, cellEmbeddingAsserts, cellEmbeddingDraw,
    cellPartitionFunction, cellAutograder, cellBellCircuit,
    cellBellMeasure, cellBellExecute, cellCompile, cellHhlSetup,
    cellHhlEx1, cellHhlGrade1, cellHhlEx2, cellHhlGrade2, cellHhlEx3,
    cellHhlGrade3, cellHhlEx4, cellHhlGrade4, cellHhlEx5,
    cellHhlAmplitudes, cellHhlGrade5, cellHhlMeasure, cellHhlEmpty,
    cellUnitaryX, cellNormPreserved, cellReversibility, cellMixedState,
    cellBoltzmann]

/-- **C6.**  No notebook cell in the repository catches, retries, or
recovers from errors: no cell contains a `try/except` construct, and
consequently whenever any library call of a cell fails, running the cell
does not finish cleanly — the failure propagates to the notebook
runner. -/
theorem no_exception_handling :
    notebookCodeCells.all (fun c => c.all (fun s => !stmtIsTry s)) = true
      ∧ ∀ cell ∈ notebookCodeCells,
          ∀ oracle : String → Except String Unit,
            ∀ fn ∈ callNames cell, oracle fn ≠ .ok () →
              runStmts cell oracle ≠ .ok () := by
  have hall : notebookCodeCells.all (fun c => c.all (fun s => !stmtIsTry s))
      = true := rfl
  refine ⟨hall, ?_⟩
  intro cell hcell oracle fn hfn hbad hok
  have hno : cell.all (fun s => !stmtIsTry s) = true :=
    List.all_eq_true.mp hall cell hcell
  exact hbad (runStmts_ok_imp cell oracle hno hok fn hfn)

/-- An oracle on which the representative `qaoa.run` library call
fails. -/
def failingOracle : String → Except String Unit :=
  fun fn => if fn = "qaoa.run" then .error "AquaError" else .ok ()

/-- Witness for C6: with an oracle failing on `qaoa.run`, the cell
invoking it does not finish cleanly. -/
theorem no_exception_handling_witness :
    cellQaoaRun ∈ notebookCodeCells
      ∧ "qaoa.run" ∈ callNames cellQaoaRun
      ∧ failingOracle "qaoa.run" ≠ .ok ()
      ∧ runStmts cellQaoaRun failingOracle ≠ .ok () := by
  have horacle : failingOracle "qaoa.run" = .error "AquaError" := rfl
  refine ⟨by simp [notebookCodeCells], by decide, by rw [horacle]; simp, ?_⟩
  exact no_exception_handling.2 cellQaoaRun (by simp [notebookCodeCells])
    failingOracle "qaoa.run" (by decide) (by rw [horacle]; simp)

end QmlEdx
